import Mathlib

set_option maxHeartbeats 1000000
set_option maxRecDepth 4000

/-!
Verification development for the ChainBridge constitutional kernel
(chainbridge_kernel crate).  The Rust sources are shallowly embedded:

* wall-clock and monotonic instants become explicit `Int` parameters
  (milliseconds); `chrono::Duration` (signed) becomes `Int`,
  `std::time::Duration` (unsigned) becomes `Nat`, both in milliseconds —
  every duration the sources construct is a whole number of milliseconds,
  so the embedding is exact;
* `HashMap` registries become association lists with unique keys
  (`lookupA` / `removeA` / `insertA` / `updateA`);
* the SHA-256 digest and the std `DefaultHasher` are abstracted as
  function parameters (`sha` and `hashFn`): every theorem below holds for
  an arbitrary digest function, and witnesses instantiate them with a
  concrete computable stand-in;
* the f64 velocity arithmetic of `decision.rs` is modelled over `Nat`:
  the window is fixed at 60 s, so `window_minutes = 1.0` and the observed
  velocity is exactly the in-window decision count, and the per-tier
  maxima (3.0, 6.0, 10.0, 20.0) are exact small integers, so every f64
  comparison the source performs is exact integer comparison;
* fallible Rust functions returning `Result` become `Except`; methods on
  `&mut self` additionally return the updated state.
-/

namespace ChainBridge

/-! ### Association-list model of std HashMap (unique keys) -/

def lookupA {α : Type} (l : List (String × α)) (k : String) : Option α :=
  match l with
  | [] => none
  | p :: t => if p.1 = k then some p.2 else lookupA t k

def removeA {α : Type} (l : List (String × α)) (k : String) : List (String × α) :=
  match l with
  | [] => []
  | p :: t => if p.1 = k then removeA t k else p :: removeA t k

def insertA {α : Type} (l : List (String × α)) (k : String) (v : α) :
    List (String × α) :=
  removeA l k ++ [(k, v)]

def updateA {α : Type} (l : List (String × α)) (k : String) (f : α → α) :
    List (String × α) :=
  l.map (fun p => if p.1 = k then (p.1, f p.2) else p)

/-! ### String helpers (Rust str::starts_with, str::contains, trim, lowercase) -/

def isPrefixL (needle hay : List Char) : Bool :=
  match needle, hay with
  | [], _ => true
  | _ :: _, [] => false
  | a :: ns, b :: hs => a == b && isPrefixL ns hs

def isSubstrL (needle hay : List Char) : Bool :=
  match hay with
  | [] => needle.isEmpty
  | b :: t => isPrefixL needle (b :: t) || isSubstrL needle t

def strStartsWith (s p : String) : Bool :=
  isPrefixL p.data s.data

def strContains (hay needle : String) : Bool :=
  isSubstrL needle.data hay.data

def trimL (l : List Char) : List Char :=
  ((l.dropWhile Char.isWhitespace).reverse.dropWhile Char.isWhitespace).reverse

def normalizeAnswer (s : String) : String :=
  String.mk ((trimL s.data).map Char.toLower)

/-! ### models.rs — PAC schema and block-type definitions (v2.1.4) -/

inductive BlockType
  | BensonAnchor
  | Metadata
  | PacAdmission
  | RuntimeActivation
  | RuntimeAcknowledgment
  | RuntimeCollection
  | GovernanceModeActivation
  | GovernanceModeAcknowledgment
  | GovernanceModeCollection
  | AgentActivation
  | AgentAcknowledgment
  | AgentCollection
  | DecisionAuthorityExecutionLane
  | Context
  | GoalState
  | ConstraintsAndGuardrails
  | InvariantsEnforced
  | TasksAndPlan
  | TrainingSignal
  | PositiveClosureAndFinalState
  | LedgerCommitAndAttestation
  | TestTerminationEnforcement
  | AgentWrapBerHandshake
  deriving DecidableEq

def BlockType.toIndex : BlockType → Nat
  | .BensonAnchor => 0
  | .Metadata => 1
  | .PacAdmission => 2
  | .RuntimeActivation => 3
  | .RuntimeAcknowledgment => 4
  | .RuntimeCollection => 5
  | .GovernanceModeActivation => 6
  | .GovernanceModeAcknowledgment => 7
  | .GovernanceModeCollection => 8
  | .AgentActivation => 9
  | .AgentAcknowledgment => 10
  | .AgentCollection => 11
  | .DecisionAuthorityExecutionLane => 12
  | .Context => 13
  | .GoalState => 14
  | .ConstraintsAndGuardrails => 15
  | .InvariantsEnforced => 16
  | .TasksAndPlan => 17
  | .TrainingSignal => 18
  | .PositiveClosureAndFinalState => 19
  | .LedgerCommitAndAttestation => 20
  | .TestTerminationEnforcement => 21
  | .AgentWrapBerHandshake => 22

def BlockType.debugStr : BlockType → String
  | .BensonAnchor => "BensonAnchor"
  | .Metadata => "Metadata"
  | .PacAdmission => "PacAdmission"
  | .RuntimeActivation => "RuntimeActivation"
  | .RuntimeAcknowledgment => "RuntimeAcknowledgment"
  | .RuntimeCollection => "RuntimeCollection"
  | .GovernanceModeActivation => "GovernanceModeActivation"
  | .GovernanceModeAcknowledgment => "GovernanceModeAcknowledgment"
  | .GovernanceModeCollection => "GovernanceModeCollection"
  | .AgentActivation => "AgentActivation"
  | .AgentAcknowledgment => "AgentAcknowledgment"
  | .AgentCollection => "AgentCollection"
  | .DecisionAuthorityExecutionLane => "DecisionAuthorityExecutionLane"
  | .Context => "Context"
  | .GoalState => "GoalState"
  | .ConstraintsAndGuardrails => "ConstraintsAndGuardrails"
  | .InvariantsEnforced => "InvariantsEnforced"
  | .TasksAndPlan => "TasksAndPlan"
  | .TrainingSignal => "TrainingSignal"
  | .PositiveClosureAndFinalState => "PositiveClosureAndFinalState"
  | .LedgerCommitAndAttestation => "LedgerCommitAndAttestation"
  | .TestTerminationEnforcement => "TestTerminationEnforcement"
  | .AgentWrapBerHandshake => "AgentWrapBerHandshake"

def BlockType.all : List BlockType :=
  [ .BensonAnchor, .Metadata, .PacAdmission, .RuntimeActivation,
    .RuntimeAcknowledgment, .RuntimeCollection, .GovernanceModeActivation,
    .GovernanceModeAcknowledgment, .GovernanceModeCollection,
    .AgentActivation, .AgentAcknowledgment, .AgentCollection,
    .DecisionAuthorityExecutionLane, .Context, .GoalState,
    .ConstraintsAndGuardrails, .InvariantsEnforced, .TasksAndPlan,
    .TrainingSignal, .PositiveClosureAndFinalState,
    .LedgerCommitAndAttestation, .TestTerminationEnforcement,
    .AgentWrapBerHandshake ]

inductive GovernanceTier
  | Law
  | Policy
  | Guidance
  | Operational
  deriving DecidableEq

def GovernanceTier.asStr : GovernanceTier → String
  | .Law => "LAW"
  | .Policy => "POLICY"
  | .Guidance => "GUIDANCE"
  | .Operational => "OPERATIONAL"

structure Block where
  index : Nat
  block_type : BlockType
  content : String
  hash : Option String
  deriving DecidableEq

def Block.is_index_valid (b : Block) : Bool :=
  b.index == b.block_type.toIndex

structure PacMetadata where
  pac_id : String
  pac_version : String
  classification : String
  governance_tier : GovernanceTier
  issuer_gid : String
  issuer_role : String
  issued_at : Int
  scope : String
  supersedes : Option String
  drift_tolerance : String
  fail_closed : Bool
  schema_version : String
  deriving DecidableEq

structure Pac where
  metadata : PacMetadata
  blocks : List Block
  content_hash : Option String
  deriving DecidableEq

def Pac.has_complete_blocks (pac : Pac) : Bool :=
  pac.blocks.length == 23

def Pac.all_indices_valid (pac : Pac) : Bool :=
  pac.blocks.all (fun b => b.is_index_valid)

inductive PdoOutcome
  | Approved
  | Rejected
  | RequiresReview
  | Error
  deriving DecidableEq

inductive PreflightGate
  | G1StructuralLint
  | G2GovernanceTierValidation
  | G3ConstitutionalContinuityCheck
  | G4BlockIndexIntegrity
  | G5ContentHashVerification
  | G6IssuerAuthorizationCheck
  | G7DriftToleranceEnforcement
  | G8FinalStateAssertion
  | G9CognitiveFriction
  deriving DecidableEq

structure GateResult where
  gate : PreflightGate
  passed : Bool
  message : String
  timestamp : Int
  deriving DecidableEq

structure Pdo where
  pac_id : String
  outcome : PdoOutcome
  gate_results : List GateResult
  decision_timestamp : Int
  decision_hash : String
  executor_gid : String
  deriving DecidableEq

def Pdo.all_gates_passed (pdo : Pdo) : Bool :=
  pdo.gate_results.all (fun gr => gr.passed)

/-! ### error.rs — kernel error taxonomy -/

inductive KernelError
  | StructuralError (msg : String)
  | GovernanceError (msg : String)
  | BlockIndexError (index : Nat) (expected : String) (actual : String)
  | HashVerificationError (expected : String) (actual : String)
  | AuthorizationError (msg : String)
  | DriftError (msg : String)
  | FinalStateError (msg : String)
  | CognitiveFrictionError (msg : String)
  | SystemTimeError (message : String)
  | SerializationError (msg : String)
  | InternalError (msg : String)
  deriving DecidableEq

/-! ### friction.rs — dwell times, admission timestamps, G9 gate

`AdmissionTimestamp` is an immutable wrapper around a `DateTime` and is
modelled directly by its `Int` timestamp (milliseconds). -/

def dwell_law : Int := 5000

def dwell_policy : Int := 3000

def dwell_guidance : Int := 2000

def dwell_operational : Int := 1000

def dwell_for_tier : GovernanceTier → Int
  | .Law => dwell_law
  | .Policy => dwell_policy
  | .Guidance => dwell_guidance
  | .Operational => dwell_operational

structure DwellVerification where
  satisfied : Bool
  required : Int
  elapsed : Int
  remaining : Int
  tier : GovernanceTier
  deriving DecidableEq

def DwellVerification.new (satisfied : Bool) (required elapsed : Int)
    (tier : GovernanceTier) : DwellVerification :=
  let remaining := if satisfied then 0 else required - elapsed
  { satisfied := satisfied, required := required, elapsed := elapsed,
    remaining := remaining, tier := tier }

/-- Renders the {:.1}-seconds formatting of a millisecond count as used by
the the DwellVerification message strings (round-half-up tenths). -/
def fmtTenthsNat (ms : Nat) : String :=
  let t := (ms + 50) / 100
  toString (t / 10) ++ "." ++ toString (t % 10)

def fmtTenths (ms : Int) : String :=
  if ms < 0 then "-" ++ fmtTenthsNat (-ms).toNat else fmtTenthsNat ms.toNat

def DwellVerification.message (v : DwellVerification) : String :=
  if v.satisfied then
    "Dwell time satisfied: " ++ fmtTenths v.elapsed ++ "s elapsed >= "
      ++ fmtTenths v.required ++ "s required for " ++ v.tier.asStr ++ " tier"
  else
    "DWELL_TIME_VIOLATION: " ++ fmtTenths v.elapsed ++ "s elapsed < "
      ++ fmtTenths v.required ++ "s required for " ++ v.tier.asStr
      ++ " tier. " ++ fmtTenths v.remaining
      ++ "s remaining. Speed interpreted as negligence."

def clockSkewMsg : String :=
  "Clock skew detected: admission timestamp is in the future"

/-- DefaultFrictionGate::verify_dwell_time.  `now` and `admissionTs` are
UTC instants in milliseconds; `now - admissionTs` is the signed chrono
duration the source computes. -/
def verify_dwell_time (now admissionTs : Int) (tier : GovernanceTier) :
    Except KernelError DwellVerification :=
  let elapsed := now - admissionTs
  if elapsed < 0 then
    Except.error (KernelError.SystemTimeError clockSkewMsg)
  else
    let required := dwell_for_tier tier
    let satisfied := decide (required ≤ elapsed)
    Except.ok (DwellVerification.new satisfied required elapsed tier)

/-- DefaultFrictionGate::gate_g9_cognitive_friction. -/
def gate_g9_cognitive_friction (now admissionTs : Int) (tier : GovernanceTier) :
    Except KernelError GateResult :=
  match verify_dwell_time now admissionTs tier with
  | Except.error e => Except.error e
  | Except.ok v =>
      Except.ok { gate := PreflightGate.G9CognitiveFriction,
                  passed := v.satisfied,
                  message := v.message,
                  timestamp := now }

/-! ### validator.rs — gates G1 to G8 and the full pre-flight pipeline

The SHA-256 digest is abstracted as `sha : List String → String`,
digesting the concatenation of the listed byte chunks; `hasherByte b`
is the single-byte chunk `[passed as u8]` the decision hash feeds in. -/

def gate_g1_structural_lint (pac : Pac) (now : Int) : GateResult :=
  let passed := pac.has_complete_blocks
  let message :=
    if passed then "PAC has exactly 23 blocks (v2.1.4 schema)"
    else "PAC has " ++ toString pac.blocks.length ++ " blocks, expected 23 (v2.1.4)"
  { gate := PreflightGate.G1StructuralLint, passed := passed,
    message := message, timestamp := now }

def gate_g2_governance_tier (pac : Pac) (now : Int) : GateResult :=
  let tier := pac.metadata.governance_tier
  let passed :=
    match tier with
    | GovernanceTier.Law => true
    | GovernanceTier.Policy => true
    | GovernanceTier.Guidance => true
    | GovernanceTier.Operational => true
  let message := "Governance tier \x27" ++ tier.asStr ++ "\x27 validated"
  { gate := PreflightGate.G2GovernanceTierValidation, passed := passed,
    message := message, timestamp := now }

def gate_g3_constitutional_continuity (pac : Pac) (now : Int) : GateResult :=
  let schema := pac.metadata.schema_version
  let passed := strStartsWith schema ("CHAINBRIDGE_PAC_SCHEMA_v1.")
    || strStartsWith schema ("CHAINBRIDGE_PAC_SCHEMA_v2.")
  let message :=
    if passed then "Schema version \x27" ++ schema ++ "\x27 is compatible"
    else "Schema version \x27" ++ schema ++ "\x27 is not compatible with v1.x or v2.x"
  { gate := PreflightGate.G3ConstitutionalContinuityCheck, passed := passed,
    message := message, timestamp := now }

def gate_g4_block_index_integrity (pac : Pac) (now : Int) : GateResult :=
  let passed := pac.all_indices_valid
  let message :=
    if passed then "All block indices match their block types"
    else
      let mismatched := (pac.blocks.filter (fun b => !b.is_index_valid)).map
        (fun b => "Block " ++ toString b.index ++ " has type " ++ b.block_type.debugStr)
      "Block index mismatch: " ++ String.intercalate (", ") mismatched
  { gate := PreflightGate.G4BlockIndexIntegrity, passed := passed,
    message := message, timestamp := now }

def compute_content_hash (sha : List String → String) (pac : Pac) : String :=
  sha (pac.metadata.pac_id :: pac.blocks.map (fun b => b.content))

def gate_g5_content_hash (sha : List String → String) (pac : Pac) (now : Int) :
    GateResult :=
  let pm : Bool × String :=
    match pac.content_hash with
    | some expected_hash =>
        let computed := compute_content_hash sha pac
        if computed = expected_hash then (true, "Content hash verified")
        else (false, "Content hash mismatch: expected " ++ expected_hash
                      ++ ", got " ++ computed)
    | none => (true, "No content hash provided (optional)")
  { gate := PreflightGate.G5ContentHashVerification, passed := pm.1,
    message := pm.2, timestamp := now }

def gate_g6_issuer_authorization (pac : Pac) (now : Int) : GateResult :=
  let gid := pac.metadata.issuer_gid
  let passed := strStartsWith gid ("GID-")
  let message :=
    if passed then "Issuer GID \x27" ++ gid ++ "\x27 has valid format"
    else "Issuer GID \x27" ++ gid ++ "\x27 does not match GID-XX pattern"
  { gate := PreflightGate.G6IssuerAuthorizationCheck, passed := passed,
    message := message, timestamp := now }

def gate_g7_drift_tolerance (pac : Pac) (now : Int) : GateResult :=
  let drift := pac.metadata.drift_tolerance
  let tier := pac.metadata.governance_tier
  let passed :=
    match tier with
    | GovernanceTier.Law => drift == "ZERO"
    | _ => true
  let message :=
    if passed then
      "Drift tolerance \x27" ++ drift ++ "\x27 is valid for tier \x27" ++ tier.asStr ++ "\x27"
    else "LAW tier requires ZERO drift tolerance, got \x27" ++ drift ++ "\x27"
  { gate := PreflightGate.G7DriftToleranceEnforcement, passed := passed,
    message := message, timestamp := now }

def gate_g8_final_state (pac : Pac) (now : Int) : GateResult :=
  let final_block := pac.blocks.find?
    (fun b => decide (b.block_type = BlockType.PositiveClosureAndFinalState))
  let pm : Bool × String :=
    match final_block with
    | some block =>
        if strContains block.content ("execution_blocking") then
          (true, "FINAL_STATE contains execution_blocking assertion")
        else (false, "FINAL_STATE missing execution_blocking assertion")
    | none => (false, "FINAL_STATE block not found")
  { gate := PreflightGate.G8FinalStateAssertion, passed := pm.1,
    message := pm.2, timestamp := now }

def hasherByte (b : Bool) : String :=
  if b then "\x01" else "\x00"

def compute_decision_hash (sha : List String → String) (pac : Pac)
    (gate_results : List GateResult) : String :=
  sha (pac.metadata.pac_id ::
    gate_results.flatMap (fun gr => [hasherByte gr.passed, gr.message]))

/-- ConstitutionalValidator::validate_preflight_with_friction.
`executorGid` is the validator field; `admissionTs` and `now` are the
admission instant and the current wall-clock instant (milliseconds). -/
def validate_preflight_with_friction (sha : List String → String)
    (executorGid : String) (pac : Pac) (admissionTs now : Int) :
    Except KernelError Pdo :=
  let g1 := gate_g1_structural_lint pac now
  let g2 := gate_g2_governance_tier pac now
  let g3 := gate_g3_constitutional_continuity pac now
  let g4 := gate_g4_block_index_integrity pac now
  let g5 := gate_g5_content_hash sha pac now
  let g6 := gate_g6_issuer_authorization pac now
  let g7 := gate_g7_drift_tolerance pac now
  let g8 := gate_g8_final_state pac now
  match gate_g9_cognitive_friction now admissionTs pac.metadata.governance_tier with
  | Except.error e => Except.error e
  | Except.ok g9 =>
      let gate_results := [g1, g2, g3, g4, g5, g6, g7, g8, g9]
      let all_passed := ((((((((g1.passed && g2.passed) && g3.passed)
        && g4.passed) && g5.passed) && g6.passed) && g7.passed)
        && g8.passed) && g9.passed)
      let outcome :=
        if all_passed then PdoOutcome.Approved else PdoOutcome.Rejected
      let decision_hash := compute_decision_hash sha pac gate_results
      Except.ok { pac_id := pac.metadata.pac_id, outcome := outcome,
                  gate_results := gate_results, decision_timestamp := now,
                  decision_hash := decision_hash, executor_gid := executorGid }

/-! ### cognitive/mod.rs — friction tier and error taxonomy -/

inductive FrictionTier
  | Law
  | Policy
  | Guidance
  | Operational
  deriving DecidableEq

/-- FrictionTier::minimum_dwell, std Duration in milliseconds. -/
def FrictionTier.minimum_dwell : FrictionTier → Nat
  | .Law => 5000
  | .Policy => 3000
  | .Guidance => 2000
  | .Operational => 1000

def FrictionTier.requires_challenge : FrictionTier → Bool
  | .Law => true
  | _ => false

def FrictionTier.challenge_recommended : FrictionTier → Bool
  | .Law => true
  | .Policy => true
  | _ => false

def FrictionTier.allows_remember_shortcut : FrictionTier → Bool
  | .Guidance => true
  | .Operational => true
  | _ => false

/-- CognitiveFrictionError.  Durations are Nat milliseconds; the two f64
fields of VelocityViolation are Nat because every value the modelled code
stores in them is a small exact integer (see the header note). -/
inductive CogError
  | DwellTimeViolation (required : Nat) (actual : Nat) (tier : FrictionTier)
  | ChallengeFailure (challenge_id : String) (attempts : Nat) (max_attempts : Nat)
  | RememberShortcutForbidden (tier : FrictionTier)
  | VelocityViolation (decisions_per_minute : Nat) (max_safe_velocity : Nat)
  | BypassAttemptDetected (method : String) (timestamp : Nat)
  | TimerNotStarted
  | ChallengeRequired (tier : FrictionTier)
  | InternalError (msg : String)
  deriving DecidableEq

/-! ### cognitive/challenge.rs — challenge-response protocol -/

inductive ChallengeType
  | Semantic
  | Confirmation
  | Digest
  | Consequence
  deriving DecidableEq

def ChallengeType.difficulty : ChallengeType → Nat
  | .Confirmation => 1
  | .Digest => 2
  | .Semantic => 3
  | .Consequence => 4

def ChallengeType.for_tier : FrictionTier → ChallengeType
  | .Law => .Consequence
  | .Policy => .Semantic
  | .Guidance => .Digest
  | .Operational => .Confirmation

structure Challenge where
  id : String
  challenge_type : ChallengeType
  prompt : String
  expected_hash : Nat
  acceptable_variations : List Nat
  max_attempts : Nat
  time_limit : Int
  issued_at : Int
  tier : FrictionTier
  deriving DecidableEq

def Challenge.max_attempts_for_tier : FrictionTier → Nat
  | .Law => 2
  | .Policy => 3
  | .Guidance => 3
  | .Operational => 5

/-- Challenge time limits, milliseconds. -/
def Challenge.time_limit_for_tier : FrictionTier → Int
  | .Law => 120000
  | .Policy => 90000
  | .Guidance => 60000
  | .Operational => 30000

/-- Challenge::hash_answer with the std DefaultHasher abstracted as
`hashFn`; the trim-then-lowercase normalization is modelled exactly. -/
def hash_answer (hashFn : String → Nat) (answer : String) : Nat :=
  hashFn (normalizeAnswer answer)

def Challenge.check_answer (hashFn : String → Nat) (c : Challenge)
    (answer : String) : Bool :=
  let answer_hash := hash_answer hashFn answer
  answer_hash == c.expected_hash || c.acceptable_variations.contains answer_hash

def Challenge.is_expired (c : Challenge) (now : Int) : Bool :=
  decide (c.time_limit < now - c.issued_at)

structure ChallengeResponse where
  challenge_id : String
  answer : String
  attempt : Nat
  response_time : Nat
  deriving DecidableEq

structure ChallengeVerifier where
  active_challenges : List (String × Challenge)
  attempt_counts : List (String × Nat)
  challenge_counter : Nat
  deriving DecidableEq

def ChallengeVerifier.new : ChallengeVerifier :=
  { active_challenges := [], attempt_counts := [], challenge_counter := 0 }

def notFoundMsg (id : String) : String :=
  "Challenge " ++ id ++ " not found"

/-- ChallengeVerifier::verify.  Returns the Result plus the updated
verifier state (the source method takes &mut self). -/
def ChallengeVerifier.verify (hashFn : String → Nat) (st : ChallengeVerifier)
    (now : Int) (response : ChallengeResponse) :
    Except CogError Bool × ChallengeVerifier :=
  match lookupA st.active_challenges response.challenge_id with
  | none =>
      (Except.error (CogError.InternalError (notFoundMsg response.challenge_id)), st)
  | some challenge =>
      if challenge.is_expired now then
        (Except.error (CogError.ChallengeFailure response.challenge_id
            response.attempt challenge.max_attempts),
         { st with active_challenges :=
             removeA st.active_challenges response.challenge_id })
      else
        let attempts := (lookupA st.attempt_counts response.challenge_id).getD 0 + 1
        let counts1 := insertA st.attempt_counts response.challenge_id attempts
        let st1 := { st with attempt_counts := counts1 }
        if challenge.max_attempts < attempts then
          (Except.error (CogError.ChallengeFailure response.challenge_id
              attempts challenge.max_attempts),
           { st1 with active_challenges :=
               removeA st1.active_challenges response.challenge_id })
        else if challenge.check_answer hashFn response.answer then
          (Except.ok true,
           { st1 with
               active_challenges :=
                 removeA st1.active_challenges response.challenge_id,
               attempt_counts :=
                 removeA st1.attempt_counts response.challenge_id })
        else if challenge.max_attempts ≤ attempts then
          (Except.error (CogError.ChallengeFailure response.challenge_id
              attempts challenge.max_attempts),
           { st1 with active_challenges :=
               removeA st1.active_challenges response.challenge_id })
        else
          (Except.ok false, st1)

def ChallengeVerifier.is_active (st : ChallengeVerifier) (id : String) : Bool :=
  (lookupA st.active_challenges id).isSome

/-! ### cognitive/timer.rs — dwell timer

`Instant` becomes an `Int` millisecond reading of a monotonic clock,
passed explicitly as `now`.  `Instant::elapsed` saturates at zero, which
`(now - t).toNat` reproduces; std Duration subtraction saturates, which
Nat subtraction reproduces. -/

structure TimerState where
  started_at : Int
  elapsed : Nat
  required_dwell : Nat
  dwell_satisfied : Bool
  tier : FrictionTier
  deriving DecidableEq

structure DwellRequirement where
  minimum : Nat
  recommended : Nat
  maximum : Nat
  tier : FrictionTier
  deriving DecidableEq

def DwellRequirement.for_tier (tier : FrictionTier) : DwellRequirement :=
  let mrm : Nat × Nat × Nat :=
    match tier with
    | .Law => (5000, 30000, 300000)
    | .Policy => (3000, 15000, 180000)
    | .Guidance => (2000, 10000, 120000)
    | .Operational => (1000, 5000, 60000)
  { minimum := mrm.1, recommended := mrm.2.1, maximum := mrm.2.2, tier := tier }

structure ActiveTimer where
  started_at : Int
  tier : FrictionTier
  requirement : DwellRequirement
  paused : Bool
  paused_duration : Nat
  deriving DecidableEq

/-- ActiveTimer::effective_elapsed (returns zero while paused; otherwise
elapsed-since-started_at saturating-minus paused_duration). -/
def ActiveTimer.effective_elapsed (t : ActiveTimer) (now : Int) : Nat :=
  if t.paused then 0
  else (now - t.started_at).toNat - t.paused_duration

def ActiveTimer.is_satisfied (t : ActiveTimer) (now : Int) : Bool :=
  decide (t.requirement.minimum ≤ t.effective_elapsed now)

def ActiveTimer.to_state (t : ActiveTimer) (now : Int) : TimerState :=
  let elapsed := t.effective_elapsed now
  { started_at := t.started_at, elapsed := elapsed,
    required_dwell := t.requirement.minimum,
    dwell_satisfied := decide (t.requirement.minimum ≤ elapsed),
    tier := t.tier }

structure CompletedTimer where
  decision_id : String
  review_duration : Nat
  tier : FrictionTier
  dwell_satisfied : Bool
  completed_at : Int
  deriving DecidableEq

structure FrictionTimer where
  active_timers : List (String × ActiveTimer)
  completed_timers : List CompletedTimer
  max_concurrent : Nat
  deriving DecidableEq

def FrictionTimer.new : FrictionTimer :=
  { active_timers := [], completed_timers := [], max_concurrent := 100 }

def findOldestTimer (l : List (String × ActiveTimer)) : Option String :=
  (l.foldl (fun acc p =>
    match acc with
    | none => some p
    | some q => if p.2.started_at < q.2.started_at then some p else some q)
    none).map (fun p => p.1)

def FrictionTimer.start (ft : FrictionTimer) (now : Int) (decision_id : String)
    (tier : FrictionTier) : FrictionTimer :=
  let ft0 :=
    if ft.max_concurrent ≤ ft.active_timers.length then
      match findOldestTimer ft.active_timers with
      | some oldest => { ft with active_timers := removeA ft.active_timers oldest }
      | none => ft
    else ft
  let timer : ActiveTimer :=
    { started_at := now, tier := tier,
      requirement := DwellRequirement.for_tier tier,
      paused := false, paused_duration := 0 }
  { ft0 with active_timers := insertA ft0.active_timers decision_id timer }

def FrictionTimer.check (ft : FrictionTimer) (now : Int) (decision_id : String) :
    Except CogError TimerState :=
  match lookupA ft.active_timers decision_id with
  | none => Except.error CogError.TimerNotStarted
  | some t => Except.ok (t.to_state now)

def FrictionTimer.is_satisfied (ft : FrictionTimer) (now : Int)
    (decision_id : String) : Bool :=
  ((lookupA ft.active_timers decision_id).map
    (fun t => t.is_satisfied now)).getD false

def FrictionTimer.pause (ft : FrictionTimer) (decision_id : String) :
    FrictionTimer :=
  let timers := updateA ft.active_timers decision_id
    (fun t => { t with paused := true })
  { ft with active_timers := timers }

/-- FrictionTimer::resume: if the timer is paused, add the elapsed time
since started_at to paused_duration and reset started_at to now. -/
def FrictionTimer.resume (ft : FrictionTimer) (now : Int) (decision_id : String) :
    FrictionTimer :=
  let timers := updateA ft.active_timers decision_id
    (fun t =>
      if t.paused then
        { t with paused_duration := t.paused_duration + (now - t.started_at).toNat,
                 started_at := now, paused := false }
      else t)
  { ft with active_timers := timers }

def FrictionTimer.clear (ft : FrictionTimer) (now : Int) (decision_id : String) :
    FrictionTimer :=
  match lookupA ft.active_timers decision_id with
  | none => ft
  | some t =>
      let rec0 : CompletedTimer :=
        { decision_id := decision_id,
          review_duration := t.effective_elapsed now,
          tier := t.tier,
          dwell_satisfied := t.is_satisfied now,
          completed_at := now }
      let completed := ft.completed_timers ++ [rec0]
      let completed := if 1000 < completed.length then completed.drop 500 else completed
      { ft with active_timers := removeA ft.active_timers decision_id,
                completed_timers := completed }

/-! ### cognitive/decision.rs — decision gate and velocity tracking -/

structure DecisionRequest where
  decision_id : String
  tier : FrictionTier
  remember_choice : Bool
  challenge_response : Option ChallengeResponse
  pac_id : Option String
  summary : String
  deriving DecidableEq

inductive DecisionOutcome
  | Approved (decision_id : String) (review_duration : Nat) (challenge_passed : Bool)
  | Rejected (decision_id : String) (reason : String)
  | RequiresMoreReview (decision_id : String) (time_remaining : Nat)
  | ChallengeRequired (decision_id : String) (challenge_id : String)
  deriving DecidableEq

structure DecisionRecord where
  timestamp : Int
  tier : FrictionTier
  review_duration : Nat
  deriving DecidableEq

structure DecisionGate where
  default_tier : FrictionTier
  recent_decisions : List DecisionRecord
  velocity_window : Int
  max_velocity : Nat
  velocity_enforcement : Bool
  deriving DecidableEq

def DecisionGate.new : DecisionGate :=
  { default_tier := FrictionTier.Law, recent_decisions := [],
    velocity_window := 60000, max_velocity := 6,
    velocity_enforcement := true }

def DecisionGate.for_tier (tier : FrictionTier) : DecisionGate :=
  { DecisionGate.new with
      default_tier := tier,
      max_velocity :=
        match tier with
        | .Law => 3
        | .Policy => 6
        | .Guidance => 10
        | .Operational => 20 }

/-- clean_old_decisions: pop from the front while strictly older than the
window cutoff. -/
def cleanOld (l : List DecisionRecord) (window now : Int) : List DecisionRecord :=
  match l with
  | [] => []
  | d :: t => if d.timestamp < now - window then cleanOld t window now else d :: t

def countRecent (l : List DecisionRecord) (window now : Int) : Nat :=
  (l.filter (fun d => decide (now - window ≤ d.timestamp))).length

/-- current_velocity: with the 60 s window of new/for_tier the f64
decisions-per-minute value is exactly the in-window count. -/
def DecisionGate.current_velocity (g : DecisionGate) (now : Int) : Nat :=
  countRecent g.recent_decisions g.velocity_window now

/-- DecisionGate::record_decision.  The source prunes (mutating), then
rejects before recording when enforcement is on and the observed velocity
has reached the maximum, else appends the new timestamp. -/
def DecisionGate.record_decision (g : DecisionGate) (now : Int)
    (request : DecisionRequest) : Except CogError Unit × DecisionGate :=
  let pruned := cleanOld g.recent_decisions g.velocity_window now
  let g0 := { g with recent_decisions := pruned }
  if g0.velocity_enforcement && decide (g0.max_velocity ≤ g0.current_velocity now) then
    (Except.error (CogError.VelocityViolation (g0.current_velocity now)
        g0.max_velocity), g0)
  else
    (Except.ok (),
     { g0 with recent_decisions := g0.recent_decisions ++
         [{ timestamp := now, tier := request.tier, review_duration := 0 }] })

def DecisionGate.would_reject (g : DecisionGate) (now : Int) : Bool :=
  g.velocity_enforcement && decide (g.max_velocity ≤ g.current_velocity now)

/-! ### cognitive/mod.rs — CognitiveGate orchestrator -/

structure CognitiveGate where
  timer : FrictionTimer
  verifier : ChallengeVerifier
  decision_gate : DecisionGate
  max_velocity : Nat
  armed : Bool
  deriving DecidableEq

def CognitiveGate.new : CognitiveGate :=
  { timer := FrictionTimer.new, verifier := ChallengeVerifier.new,
    decision_gate := DecisionGate.new, max_velocity := 6, armed := true }

def CognitiveGate.for_tier (tier : FrictionTier) : CognitiveGate :=
  { CognitiveGate.new with decision_gate := DecisionGate.for_tier tier }

def CognitiveGate.start_review (g : CognitiveGate) (now : Int)
    (decision_id : String) (tier : FrictionTier) : CognitiveGate :=
  { g with timer := g.timer.start now decision_id tier }

/-- CognitiveGate::submit_decision.  Checks (in source order): disarmed
shortcut, timer started, dwell met, challenge presence for tiers that
require one, challenge verification, remember-shortcut policy, velocity
recording, then clears the timer and approves. -/
def CognitiveGate.submit_decision (hashFn : String → Nat) (g : CognitiveGate)
    (now : Int) (request : DecisionRequest) :
    Except CogError DecisionOutcome × CognitiveGate :=
  if !g.armed then
    (Except.ok (DecisionOutcome.Approved request.decision_id 0 false), g)
  else
    match g.timer.check now request.decision_id with
    | Except.error e => (Except.error e, g)
    | Except.ok timer_state =>
        let dwell := request.tier.minimum_dwell
        if timer_state.elapsed < dwell then
          (Except.error (CogError.DwellTimeViolation dwell timer_state.elapsed
              request.tier), g)
        else if request.tier.requires_challenge && request.challenge_response.isNone then
          (Except.error (CogError.ChallengeRequired request.tier), g)
        else
          let vres : Except CogError Bool × ChallengeVerifier :=
            match request.challenge_response with
            | some response => g.verifier.verify hashFn now response
            | none => (Except.ok false, g.verifier)
          match vres.1 with
          | Except.error e => (Except.error e, { g with verifier := vres.2 })
          | Except.ok challenge_passed =>
              if request.remember_choice && !request.tier.allows_remember_shortcut then
                (Except.error (CogError.RememberShortcutForbidden request.tier),
                 { g with verifier := vres.2 })
              else
                let rres := g.decision_gate.record_decision now request
                match rres.1 with
                | Except.error e =>
                    (Except.error e,
                     { g with verifier := vres.2, decision_gate := rres.2 })
                | Except.ok _ =>
                    (Except.ok (DecisionOutcome.Approved request.decision_id
                        timer_state.elapsed challenge_passed),
                     { g with verifier := vres.2, decision_gate := rres.2,
                              timer := g.timer.clear now request.decision_id })

/-! ### Concrete fixtures for witnesses and counterexamples -/

/-- Stand-in for the abstracted SHA-256 digest in concrete witnesses. -/
def shaNull : List String → String := fun _ => ""

/-- Stand-in for the abstracted std DefaultHasher in concrete witnesses. -/
def hashLen : String → Nat := fun s => s.data.length

def gidExec : String := "GID-00-EXEC"

def testMetadata : PacMetadata :=
  { pac_id := "PAC-TEST-001", pac_version := "v2.1.4", classification := "TEST",
    governance_tier := GovernanceTier.Law, issuer_gid := "GID-00",
    issuer_role := "Test", issued_at := 0, scope := "test", supersedes := none,
    drift_tolerance := "ZERO", fail_closed := true,
    schema_version := "CHAINBRIDGE_PAC_SCHEMA_v2.1.4" }

def testBlockContent (t : BlockType) : String :=
  if t = BlockType.PositiveClosureAndFinalState then "execution_blocking: TRUE"
  else if t = BlockType.BensonAnchor then "BENSON ACK: I am GID-00-EXEC"
  else if t = BlockType.AgentWrapBerHandshake then "WRAP/BER HANDSHAKE: EXECUTE"
  else "content"

/-- A fully well-formed 23-block v2.1.4 PAC (mirrors the create_test_pac
test fixture of validator.rs). -/
def testPac : Pac :=
  { metadata := testMetadata,
    blocks := BlockType.all.enum.map (fun p =>
      { index := p.1, block_type := p.2, content := testBlockContent p.2,
        hash := none }),
    content_hash := none }

def emptyPdo : Pdo :=
  { pac_id := "", outcome := PdoOutcome.Error, gate_results := [],
    decision_timestamp := 0, decision_hash := "", executor_gid := "" }

def testPdo : Pdo :=
  match validate_preflight_with_friction shaNull gidExec testPac 0 10000 with
  | Except.ok p => p
  | Except.error _ => emptyPdo

/-- A PAC with two blocks of the terminal type, the first carrying the
required marker. -/
def pacTwoFinal : Pac :=
  { metadata := testMetadata,
    blocks :=
      [ { index := 19, block_type := BlockType.PositiveClosureAndFinalState,
          content := "execution_blocking: TRUE", hash := none },
        { index := 19, block_type := BlockType.PositiveClosureAndFinalState,
          content := "terminal", hash := none } ],
    content_hash := none }

/-- Timer started at 0, paused (the source records no pause instant),
resumed at 5000. -/
def c5Timer : FrictionTimer :=
  ((FrictionTimer.new.start 0 ("d1") FrictionTier.Law).pause ("d1")).resume
    5000 ("d1")

def wChallenge : Challenge :=
  { id := "CH-1", challenge_type := ChallengeType.Confirmation,
    prompt := "Type CONFIRM", expected_hash := 7, acceptable_variations := [],
    max_attempts := 5, time_limit := 30000, issued_at := 0,
    tier := FrictionTier.Operational }

def wVerifier : ChallengeVerifier :=
  { active_challenges := [(("CH-1"), wChallenge)],
    attempt_counts := [(("CH-1"), 0)], challenge_counter := 1 }

def wResp : ChallengeResponse :=
  { challenge_id := "CH-1", answer := "CONFIRM", attempt := 1,
    response_time := 1000 }

def wVerifier2 : ChallengeVerifier :=
  { active_challenges := [], attempt_counts := [], challenge_counter := 1 }

def wGate4 : CognitiveGate :=
  { CognitiveGate.new with
      timer := FrictionTimer.new.start 0 ("d1") FrictionTier.Policy }

def wReq4 : DecisionRequest :=
  { decision_id := "d1", tier := FrictionTier.Policy, remember_choice := false,
    challenge_response := none, pac_id := none, summary := "review" }

def wTs4 : TimerState :=
  { started_at := 0, elapsed := 2999, required_dwell := 3000,
    dwell_satisfied := false, tier := FrictionTier.Policy }

def wRecLaw3 : List DecisionRecord :=
  [ { timestamp := 1000, tier := FrictionTier.Law, review_duration := 0 },
    { timestamp := 1100, tier := FrictionTier.Law, review_duration := 0 },
    { timestamp := 1200, tier := FrictionTier.Law, review_duration := 0 } ]

def wRecLaw2 : List DecisionRecord :=
  [ { timestamp := 1000, tier := FrictionTier.Law, review_duration := 0 },
    { timestamp := 1100, tier := FrictionTier.Law, review_duration := 0 } ]

def wGate9 : CognitiveGate :=
  { CognitiveGate.new with
      timer := FrictionTimer.new.start 0 ("d1") FrictionTier.Policy }

def wReq9 : DecisionRequest :=
  { decision_id := "d1", tier := FrictionTier.Policy, remember_choice := true,
    challenge_response := none, pac_id := none, summary := "review" }

def wReq9g : DecisionRequest :=
  { decision_id := "d1", tier := FrictionTier.Guidance, remember_choice := true,
    challenge_response := none, pac_id := none, summary := "review" }

def wTs9 : TimerState :=
  { started_at := 0, elapsed := 4000, required_dwell := 3000,
    dwell_satisfied := true, tier := FrictionTier.Policy }

/-! ### Shared helper lemmas -/

theorem lookupA_removeA_self {α : Type} (l : List (String × α)) (k : String) :
    lookupA (removeA l k) k = none := by
  induction l with
  | nil => rfl
  | cons p t ih =>
      by_cases h : p.1 = k
      · simpa [removeA, h] using ih
      · simp [removeA, h, lookupA, ih]

theorem lookupA_removeA_of_none {α : Type} (l : List (String × α)) (j k : String)
    (h : lookupA l k = none) : lookupA (removeA l j) k = none := by
  induction l with
  | nil => rfl
  | cons p t ih =>
      by_cases hp : p.1 = k
      · simp [lookupA, hp] at h
      · simp only [lookupA, if_neg hp] at h
        by_cases hj : p.1 = j
        · simp [removeA, hj, ih h]
        · simp [removeA, hj, lookupA, hp, ih h]

theorem all_nine_passed (a b c d e f g h i : GateResult) :
    ([a, b, c, d, e, f, g, h, i].all (fun gr => gr.passed))
      = ((((((((a.passed && b.passed) && c.passed) && d.passed) && e.passed)
          && f.passed) && g.passed) && h.passed) && i.passed) := by
  simp [Bool.and_assoc]

theorem for_tier_velocity_window (t : FrictionTier) :
    (DecisionGate.for_tier t).velocity_window = 60000 := rfl

theorem for_tier_enforcement (t : FrictionTier) :
    (DecisionGate.for_tier t).velocity_enforcement = true := rfl

/-- If an armed submit_decision succeeds, the remember-shortcut condition
must have evaluated to false. -/
theorem submit_ok_remember_false (hashFn : String → Nat) (g : CognitiveGate)
    (now : Int) (req : DecisionRequest) (d : DecisionOutcome)
    (harm : g.armed = true)
    (h : (CognitiveGate.submit_decision hashFn g now req).1 = Except.ok d) :
    (req.remember_choice && !req.tier.allows_remember_shortcut) = false := by
  simp only [CognitiveGate.submit_decision, harm, Bool.not_true,
    Bool.false_eq_true, if_false] at h
  split at h
  · simp at h
  · split at h
    · simp at h
    · split at h
      · simp at h
      · split at h
        · simp at h
        · split at h
          · simp at h
          · rename_i hrm
            exact Bool.not_eq_true _ ▸ hrm

/-! ### Claim theorems -/

theorem outcome_of_flag (c : Bool) :
    ((if c then PdoOutcome.Approved else PdoOutcome.Rejected) = PdoOutcome.Approved
      ↔ c = true) ∧
    ((if c then PdoOutcome.Approved else PdoOutcome.Rejected) ≠ PdoOutcome.Approved →
      (if c then PdoOutcome.Approved else PdoOutcome.Rejected) = PdoOutcome.Rejected) := by
  cases c <;> simp

/-- Claim C1: whenever validate_preflight_with_friction returns Ok(pdo),
the outcome is Approved iff every GateResult in pdo.gate_results passed,
and any other Ok outcome is Rejected. -/
theorem c1_outcome_approved_iff_all_gates_pass (sha : List String → String)
    (executorGid : String) (pac : Pac) (admissionTs now : Int) (pdo : Pdo)
    (h : validate_preflight_with_friction sha executorGid pac admissionTs now
      = Except.ok pdo) :
    (pdo.outcome = PdoOutcome.Approved ↔
      pdo.gate_results.all (fun gr => gr.passed) = true) ∧
    (pdo.outcome ≠ PdoOutcome.Approved → pdo.outcome = PdoOutcome.Rejected) := by
  simp only [validate_preflight_with_friction] at h
  split at h
  · simp at h
  · rw [Except.ok.injEq] at h
    subst h
    dsimp only
    rw [all_nine_passed]
    exact outcome_of_flag _

/-- Witness for C1 on a fully valid 23-block PAC reviewed for 10 s. -/
theorem c1_witness :
    (validate_preflight_with_friction shaNull gidExec testPac 0 10000
      = Except.ok testPdo) ∧
    ((testPdo.outcome = PdoOutcome.Approved ↔
       testPdo.gate_results.all (fun gr => gr.passed) = true) ∧
     (testPdo.outcome ≠ PdoOutcome.Approved →
       testPdo.outcome = PdoOutcome.Rejected)) :=
  ⟨rfl, c1_outcome_approved_iff_all_gates_pass shaNull gidExec testPac 0 10000
    testPdo rfl⟩

/-- Claim C2: every Ok run of validate_preflight_with_friction yields
exactly nine GateResults, one per gate G1 through G9 in that order, for
every PAC — no failing gate suppresses a later GateResult. -/
theorem c2_pipeline_emits_nine_gate_results (sha : List String → String)
    (executorGid : String) (pac : Pac) (admissionTs now : Int) (pdo : Pdo)
    (h : validate_preflight_with_friction sha executorGid pac admissionTs now
      = Except.ok pdo) :
    pdo.gate_results.map (fun gr => gr.gate) =
      [PreflightGate.G1StructuralLint, PreflightGate.G2GovernanceTierValidation,
       PreflightGate.G3ConstitutionalContinuityCheck,
       PreflightGate.G4BlockIndexIntegrity,
       PreflightGate.G5ContentHashVerification,
       PreflightGate.G6IssuerAuthorizationCheck,
       PreflightGate.G7DriftToleranceEnforcement,
       PreflightGate.G8FinalStateAssertion,
       PreflightGate.G9CognitiveFriction] := by
  simp only [validate_preflight_with_friction] at h
  split at h
  · simp at h
  · rename_i g9 hg9
    have h9 : g9.gate = PreflightGate.G9CognitiveFriction := by
      simp only [gate_g9_cognitive_friction] at hg9
      split at hg9
      · simp at hg9
      · rw [Except.ok.injEq] at hg9
        subst hg9
        rfl
    rw [Except.ok.injEq] at h
    subst h
    simp [gate_g1_structural_lint, gate_g2_governance_tier,
      gate_g3_constitutional_continuity, gate_g4_block_index_integrity,
      gate_g5_content_hash, gate_g6_issuer_authorization,
      gate_g7_drift_tolerance, gate_g8_final_state, h9]

/-- Witness for C2 on the same valid PAC. -/
theorem c2_witness :
    (validate_preflight_with_friction shaNull gidExec testPac 0 10000
      = Except.ok testPdo) ∧
    testPdo.gate_results.map (fun gr => gr.gate) =
      [PreflightGate.G1StructuralLint, PreflightGate.G2GovernanceTierValidation,
       PreflightGate.G3ConstitutionalContinuityCheck,
       PreflightGate.G4BlockIndexIntegrity,
       PreflightGate.G5ContentHashVerification,
       PreflightGate.G6IssuerAuthorizationCheck,
       PreflightGate.G7DriftToleranceEnforcement,
       PreflightGate.G8FinalStateAssertion,
       PreflightGate.G9CognitiveFriction] :=
  ⟨rfl, c2_pipeline_emits_nine_gate_results shaNull gidExec testPac 0 10000
    testPdo rfl⟩

/-- Claim C10: gate G2 (governance tier validation) can never fail — for
every PAC the G2 GateResult has passed = true, because GovernanceTier is a
closed four-variant enum and the check matches all four variants. -/
theorem c10_gate_g2_never_fails (pac : Pac) (now : Int) :
    (gate_g2_governance_tier pac now).passed = true := by
  simp only [gate_g2_governance_tier]
  cases pac.metadata.governance_tier <;> rfl

/-- Claim C3, counterexample: a PAC holding two blocks of the terminal
type PositiveClosureAndFinalState, the first of which contains the marker
substring, still passes G8 — contradicting the requirement that exactly
one such block must exist for G8 to pass. -/
theorem c3_counterexample :
    (gate_g8_final_state pacTwoFinal 0).passed = true ∧
    (pacTwoFinal.blocks.filter
      (fun b => decide (b.block_type = BlockType.PositiveClosureAndFinalState))).length
      = 2 := by
  constructor
  · rfl
  · rfl

/-- Claim C3 (amended): G8 passes iff the FIRST block of the terminal type
PositiveClosureAndFinalState exists and its content contains the marker
substring execution_blocking; zero such blocks fail G8, but additional
terminal-type blocks beyond the first are ignored rather than rejected. -/
theorem c3_amended_first_terminal_block (pac : Pac) (now : Int) :
    (gate_g8_final_state pac now).passed = true ↔
      (∃ b, pac.blocks.find?
          (fun b => decide (b.block_type = BlockType.PositiveClosureAndFinalState))
            = some b
        ∧ strContains b.content ("execution_blocking") = true) := by
  simp only [gate_g8_final_state]
  cases hf : pac.blocks.find?
      (fun b => decide (b.block_type = BlockType.PositiveClosureAndFinalState)) with
  | none => simp
  | some b =>
      by_cases hc : strContains b.content ("execution_blocking") = true
      · simp [hc]
      · simp [hc]

/-- Claim C5 (code bug): a timer started at instant 0, paused at instant
3000 and resumed at instant 5000 should, per the spec, report an
effective elapsed time at instant 6000 of 6000 minus the 2000 ms paused
span, i.e. 4000 ms.  The code instead reports 0 ms: pause records no
instant, resume adds the entire 5000 ms since start (including the
3000 ms of pre-pause review) to paused_duration, and the saturating
subtraction collapses to zero — pre-pause review time is discarded. -/
theorem c5_pause_resume_discards_review :
    FrictionTimer.check c5Timer 6000 ("d1") =
      Except.ok { started_at := 5000, elapsed := 0, required_dwell := 5000,
                  dwell_satisfied := false, tier := FrictionTier.Law } := by
  rfl

/-- Claim C4: dwell verification is inclusive at the tier minimum (Law
5 s, Policy 3 s, Guidance 2 s, Operational 1 s): for non-negative elapsed
time, verify_dwell_time succeeds with satisfied iff elapsed is at least
the tier minimum, gate G9 passes under exactly the same condition, and on
the cognitive side submit_decision rejects with DwellTimeViolation
whenever the timer elapsed is strictly below the tier minimum. -/
theorem c4_dwell_boundary_inclusive (tier : GovernanceTier)
    (admissionTs now : Int) (h : 0 ≤ now - admissionTs) :
    (dwell_for_tier GovernanceTier.Law = 5000 ∧
     dwell_for_tier GovernanceTier.Policy = 3000 ∧
     dwell_for_tier GovernanceTier.Guidance = 2000 ∧
     dwell_for_tier GovernanceTier.Operational = 1000) ∧
    (∃ v, verify_dwell_time now admissionTs tier = Except.ok v ∧
       (v.satisfied = true ↔ dwell_for_tier tier ≤ now - admissionTs)) ∧
    (∀ g, gate_g9_cognitive_friction now admissionTs tier = Except.ok g →
       (g.passed = true ↔ dwell_for_tier tier ≤ now - admissionTs)) ∧
    (FrictionTier.minimum_dwell FrictionTier.Law = 5000 ∧
     FrictionTier.minimum_dwell FrictionTier.Policy = 3000 ∧
     FrictionTier.minimum_dwell FrictionTier.Guidance = 2000 ∧
     FrictionTier.minimum_dwell FrictionTier.Operational = 1000) ∧
    (∀ (hashFn : String → Nat) (g : CognitiveGate) (req : DecisionRequest)
       (ts : TimerState), g.armed = true →
       g.timer.check now req.decision_id = Except.ok ts →
       ts.elapsed < req.tier.minimum_dwell →
       (CognitiveGate.submit_decision hashFn g now req).1 =
         Except.error (CogError.DwellTimeViolation req.tier.minimum_dwell
           ts.elapsed req.tier)) := by
  have hnlt : ¬ (now - admissionTs < 0) := not_lt.mpr h
  refine ⟨⟨rfl, rfl, rfl, rfl⟩, ?_, ?_, ⟨rfl, rfl, rfl, rfl⟩, ?_⟩
  · refine ⟨DwellVerification.new
        (decide (dwell_for_tier tier ≤ now - admissionTs))
        (dwell_for_tier tier) (now - admissionTs) tier, ?_, ?_⟩
    · simp [verify_dwell_time, hnlt]
    · simp [DwellVerification.new]
  · intro g hg
    simp only [gate_g9_cognitive_friction, verify_dwell_time, hnlt,
      if_false, if_neg] at hg
    rw [Except.ok.injEq] at hg
    subst hg
    simp [DwellVerification.new]
  · intro hashFn g req ts harm hchk hlt
    simp only [CognitiveGate.submit_decision, harm, Bool.not_true,
      Bool.false_eq_true, if_false, hchk]
    simp [hlt]

/-- Witness for C4: the Policy-tier boundary; elapsed 2999 ms is one unit
below the 3000 ms minimum and submit_decision rejects. -/
theorem c4_witness :
    ((0 : Int) ≤ 2999 - 0) ∧
    (CognitiveGate.submit_decision hashLen wGate4 2999 wReq4).1 =
      Except.error (CogError.DwellTimeViolation 3000 2999 FrictionTier.Policy) :=
  ⟨by decide,
   (c4_dwell_boundary_inclusive GovernanceTier.Policy 0 2999 (by decide)).2.2.2.2
     hashLen wGate4 wReq4 wTs4 rfl rfl (by decide)⟩

/-- Claim C6: when the admission timestamp lies strictly in the future of
the current time, verify_dwell_time — and therefore the whole
validate_preflight_with_friction run — returns SystemTimeError rather
than a clamped or negative elapsed duration or any GateResult. -/
theorem c6_clock_skew_fail_closed (sha : List String → String)
    (executorGid : String) (pac : Pac) (tier : GovernanceTier)
    (admissionTs now : Int) (h : now < admissionTs) :
    verify_dwell_time now admissionTs tier =
      Except.error (KernelError.SystemTimeError clockSkewMsg) ∧
    validate_preflight_with_friction sha executorGid pac admissionTs now =
      Except.error (KernelError.SystemTimeError clockSkewMsg) := by
  have hneg : now - admissionTs < 0 := by omega
  constructor
  · simp [verify_dwell_time, hneg]
  · simp [validate_preflight_with_friction, gate_g9_cognitive_friction,
      verify_dwell_time, hneg]

/-- Witness for C6 at admission 1000, now 0. -/
theorem c6_witness :
    ((0 : Int) < 1000) ∧
    validate_preflight_with_friction shaNull gidExec testPac 1000 0 =
      Except.error (KernelError.SystemTimeError clockSkewMsg) :=
  ⟨by decide,
   (c6_clock_skew_fail_closed shaNull gidExec testPac GovernanceTier.Law 1000 0
      (by decide)).2⟩

theorem verify_not_found (hashFn : String → Nat) (st : ChallengeVerifier)
    (now : Int) (resp : ChallengeResponse)
    (h : lookupA st.active_challenges resp.challenge_id = none) :
    ChallengeVerifier.verify hashFn st now resp =
      (Except.error (CogError.InternalError (notFoundMsg resp.challenge_id)), st) := by
  simp [ChallengeVerifier.verify, h]

/-- Claim C7: once a verify call resolves a challenge — correct answer,
expiry, or terminal failed attempt — the challenge id is gone from the
active set and every subsequent verify on that id fails with the internal
not-found error; no path retries a resolved challenge. -/
theorem c7_resolved_challenge_not_found (hashFn : String → Nat)
    (st : ChallengeVerifier) (now : Int) (resp : ChallengeResponse)
    (r : Except CogError Bool) (st2 : ChallengeVerifier)
    (h : ChallengeVerifier.verify hashFn st now resp = (r, st2))
    (hres : r = Except.ok true ∨
      ∃ cid a m, r = Except.error (CogError.ChallengeFailure cid a m)) :
    ∀ (hashFn2 : String → Nat) (now2 : Int) (resp2 : ChallengeResponse),
      resp2.challenge_id = resp.challenge_id →
      (ChallengeVerifier.verify hashFn2 st2 now2 resp2).1 =
        Except.error (CogError.InternalError (notFoundMsg resp2.challenge_id)) := by
  have habs : lookupA st2.active_challenges resp.challenge_id = none := by
    simp only [ChallengeVerifier.verify] at h
    split at h
    · rename_i hl
      injection h with h1 h2
      subst h1
      rcases hres with h1 | ⟨cid, a, m, h1⟩ <;> simp at h1
    · rename_i c hl
      split at h
      · injection h with h1 h2
        subst h2
        exact lookupA_removeA_self _ _
      · split at h
        · injection h with h1 h2
          subst h2
          exact lookupA_removeA_self _ _
        · split at h
          · injection h with h1 h2
            subst h2
            exact lookupA_removeA_self _ _
          · split at h
            · injection h with h1 h2
              subst h2
              exact lookupA_removeA_self _ _
            · injection h with h1 h2
              subst h1
              rcases hres with h1 | ⟨cid, a, m, h1⟩ <;> simp at h1
  intro hashFn2 now2 resp2 hid
  have habs2 : lookupA st2.active_challenges resp2.challenge_id = none := by
    rw [hid]; exact habs
  exact congrArg Prod.fst (verify_not_found hashFn2 st2 now2 resp2 habs2) |>.trans rfl

/-- Witness for C7: a correct answer resolves challenge CH-1; the next
verify on the same id reports the internal not-found error. -/
theorem c7_witness :
    (ChallengeVerifier.verify hashLen wVerifier 100 wResp
      = (Except.ok true, wVerifier2)) ∧
    (ChallengeVerifier.verify hashLen wVerifier2 200 wResp).1 =
      Except.error (CogError.InternalError (notFoundMsg ("CH-1"))) :=
  ⟨rfl,
   c7_resolved_challenge_not_found hashLen wVerifier 100 wResp (Except.ok true)
     wVerifier2 rfl (Or.inl rfl) hashLen 200 wResp rfl⟩

/-- Claim C8: for a DecisionGate constructed for tier T (enforcement is
enabled by construction), when the pruned 60-second window already holds
at least the tier maximum of decisions (Law 3, Policy 6, Guidance 10,
Operational 20), record_decision returns VelocityViolation with the
observed count and the maximum, without appending a timestamp; when the
count is below the maximum it appends the new timestamp and succeeds. -/
theorem c8_velocity_threshold (tier : FrictionTier) (ds : List DecisionRecord)
    (now : Int) (req : DecisionRequest) :
    ((DecisionGate.for_tier FrictionTier.Law).max_velocity = 3 ∧
     (DecisionGate.for_tier FrictionTier.Policy).max_velocity = 6 ∧
     (DecisionGate.for_tier FrictionTier.Guidance).max_velocity = 10 ∧
     (DecisionGate.for_tier FrictionTier.Operational).max_velocity = 20) ∧
    ((DecisionGate.for_tier tier).max_velocity ≤
        countRecent (cleanOld ds 60000 now) 60000 now →
      DecisionGate.record_decision
          { DecisionGate.for_tier tier with recent_decisions := ds } now req =
        (Except.error (CogError.VelocityViolation
            (countRecent (cleanOld ds 60000 now) 60000 now)
            (DecisionGate.for_tier tier).max_velocity),
         { DecisionGate.for_tier tier with
             recent_decisions := cleanOld ds 60000 now })) ∧
    (countRecent (cleanOld ds 60000 now) 60000 now <
        (DecisionGate.for_tier tier).max_velocity →
      DecisionGate.record_decision
          { DecisionGate.for_tier tier with recent_decisions := ds } now req =
        (Except.ok (),
         { DecisionGate.for_tier tier with
             recent_decisions := cleanOld ds 60000 now ++
               [{ timestamp := now, tier := req.tier, review_duration := 0 }] })) := by
  refine ⟨⟨rfl, rfl, rfl, rfl⟩, ?_, ?_⟩
  · intro hge
    simp only [DecisionGate.record_decision, DecisionGate.current_velocity]
    rw [if_pos]
    · rfl
    · simp only [Bool.and_eq_true, decide_eq_true_eq]
      exact ⟨rfl, hge⟩
  · intro hlt
    simp only [DecisionGate.record_decision, DecisionGate.current_velocity]
    rw [if_neg]
    · rfl
    · simp only [Bool.and_eq_true, decide_eq_true_eq, not_and]
      intro _
      exact not_le.mpr hlt

/-- Witness for C8 at the Law tier: three decisions in the window reject
the fourth; two decisions admit a third. -/
theorem c8_witness :
    (3 ≤ countRecent (cleanOld wRecLaw3 60000 2000) 60000 2000) ∧
    (DecisionGate.record_decision
        { DecisionGate.for_tier FrictionTier.Law with recent_decisions := wRecLaw3 }
        2000 wReq4 =
      (Except.error (CogError.VelocityViolation 3 3),
       { DecisionGate.for_tier FrictionTier.Law with
           recent_decisions := cleanOld wRecLaw3 60000 2000 })) ∧
    (DecisionGate.record_decision
        { DecisionGate.for_tier FrictionTier.Law with recent_decisions := wRecLaw2 }
        2000 wReq4 =
      (Except.ok (),
       { DecisionGate.for_tier FrictionTier.Law with
           recent_decisions := cleanOld wRecLaw2 60000 2000 ++
             [{ timestamp := 2000, tier := wReq4.tier, review_duration := 0 }] })) :=
  ⟨by decide,
   (c8_velocity_threshold FrictionTier.Law wRecLaw3 2000 wReq4).2.1 (by decide),
   (c8_velocity_threshold FrictionTier.Law wRecLaw2 2000 wReq4).2.2 (by decide)⟩

theorem record_decision_remember_irrel (g : DecisionGate) (now : Int)
    (req : DecisionRequest) :
    g.record_decision now { req with remember_choice := false }
      = g.record_decision now req := rfl

/-- Claim C9: on an armed gate, a request with remember_choice = true on
tier Law or Policy is never Approved — and once the timer, dwell and
challenge checks pass, the rejection is RememberShortcutForbidden —
while on tiers Guidance and Operational the remember flag alone changes
nothing: submitting with remember_choice = true gives exactly the same
result and state as submitting with remember_choice = false. -/
theorem c9_remember_shortcut_policy (hashFn : String → Nat) (g : CognitiveGate)
    (now : Int) (req : DecisionRequest) (harm : g.armed = true) :
    ((req.remember_choice = true →
      (req.tier = FrictionTier.Law ∨ req.tier = FrictionTier.Policy) →
      (∃ e, (CognitiveGate.submit_decision hashFn g now req).1 = Except.error e) ∧
      (∀ ts, g.timer.check now req.decision_id = Except.ok ts →
        req.tier.minimum_dwell ≤ ts.elapsed →
        (match req.challenge_response with
         | none => req.tier.requires_challenge = false
         | some resp => ∃ b v2,
             ChallengeVerifier.verify hashFn g.verifier now resp
               = (Except.ok b, v2)) →
        (CognitiveGate.submit_decision hashFn g now req).1 =
          Except.error (CogError.RememberShortcutForbidden req.tier)))) ∧
    ((req.tier = FrictionTier.Guidance ∨ req.tier = FrictionTier.Operational) →
      CognitiveGate.submit_decision hashFn g now req =
        CognitiveGate.submit_decision hashFn g now
          { req with remember_choice := false }) := by
  constructor
  · intro hrem htier
    have hallow : req.tier.allows_remember_shortcut = false := by
      rcases htier with h1 | h1 <;> rw [h1] <;> rfl
    constructor
    · cases hs : (CognitiveGate.submit_decision hashFn g now req).1 with
      | error e => exact ⟨e, rfl⟩
      | ok d =>
          have hrm := submit_ok_remember_false hashFn g now req d harm hs
          rw [hrem, hallow] at hrm
          simp at hrm
    · intro ts hchk hdle hch
      simp only [CognitiveGate.submit_decision, harm, Bool.not_true,
        Bool.false_eq_true, if_false, hchk]
      rw [if_neg (not_lt.mpr hdle)]
      cases hcro : req.challenge_response with
      | none =>
          have hreqc : req.tier.requires_challenge = false := by
            simpa [hcro] using hch
          simp [hcro, hreqc, hrem, hallow]
      | some resp =>
          obtain ⟨b, v2, hveq⟩ : ∃ b v2,
              ChallengeVerifier.verify hashFn g.verifier now resp
                = (Except.ok b, v2) := by
            simpa [hcro] using hch
          simp [hcro, hrem, hallow, hveq]
  · intro htier
    have hallow : req.tier.allows_remember_shortcut = true := by
      rcases htier with h1 | h1 <;> rw [h1] <;> rfl
    simp only [CognitiveGate.submit_decision, harm]
    simp [hallow]
    rw [record_decision_remember_irrel]

/-- Witness for C9: Policy tier with remember = true rejects with
RememberShortcutForbidden after 4 s of dwell; Guidance tier with
remember = true behaves exactly as with remember = false. -/
theorem c9_witness :
    ((CognitiveGate.submit_decision hashLen wGate9 4000 wReq9).1 =
      Except.error (CogError.RememberShortcutForbidden FrictionTier.Policy)) ∧
    (CognitiveGate.submit_decision hashLen wGate9 4000 wReq9g =
      CognitiveGate.submit_decision hashLen wGate9 4000
        { wReq9g with remember_choice := false }) :=
  ⟨((c9_remember_shortcut_policy hashLen wGate9 4000 wReq9 rfl).1 rfl
      (Or.inr rfl)).2 wTs9 rfl (by decide) rfl,
   (c9_remember_shortcut_policy hashLen wGate9 4000 wReq9g rfl).2 (Or.inl rfl)⟩

end ChainBridge
